import Mathlib

/-!
Shallow embedding of the notebook metadata reconciliation logic and the
base notebook model of `src/client/api/serviceRegistry.ts`.

JavaScript `undefined` is modelled by `Option.none`.  Mutation of the
metadata object in place is modelled by returning the updated value.
String-valued fields that the source guards with `||` fallbacks are kept
as plain strings, with the empty string playing the role of a falsy
value (in JavaScript both `undefined` and `''` are falsy and the code
only ever observes them through `||`).
-/

/-- A `language_info.version` value: the source stores either the raw
interpreter version string or (in the default content) a number. -/
inductive VersionVal where
  | str (s : String)
  | num (n : Nat)
deriving DecidableEq, Repr

/-- The `codemirror_mode` object of the default notebook content. -/
structure CodemirrorMode where
  name : String
  version : VersionVal
deriving DecidableEq, Repr

/-- `nbformat.ILanguageInfoMetadata`: the `language_info` block. -/
structure LanguageInfo where
  codemirror_mode : Option CodemirrorMode := none
  file_extension : Option String := none
  mimetype : Option String := none
  name : String
  nbconvert_exporter : Option String := none
  pygments_lexer : Option String := none
  version : Option VersionVal := none
deriving DecidableEq, Repr

/-- The `metadata.interpreter` record stored inside a kernelspec. -/
structure InterpreterHash where
  hash : String
deriving DecidableEq, Repr

/-- The optional `metadata` record of a kernelspec block. -/
structure KernelspecMetadata where
  interpreter : Option InterpreterHash := none
deriving DecidableEq, Repr

/-- The `kernelspec` block of a notebook's metadata. -/
structure Kernelspec where
  name : String
  display_name : String
  metadata : Option KernelspecMetadata := none
deriving DecidableEq, Repr

/-- `nbformat.INotebookMetadata`: the metadata object that
`updateNotebookMetadata` reconciles. -/
structure NotebookMetadata where
  language_info : Option LanguageInfo := none
  kernelspec : Option Kernelspec := none
  orig_nbformat : Option Nat := none
deriving DecidableEq, Repr

/-- A python version; the source only reads its `raw` string. -/
structure PythonVersion where
  raw : String
deriving DecidableEq, Repr

/-- A python interpreter as observed by `updateNotebookMetadata`:
`displayName || path` picks the kernelspec name, `path` feeds the hash,
`version.raw` feeds `language_info.version`. -/
structure Interpreter where
  displayName : Option String := none
  path : String
  version : Option PythonVersion := none
deriving DecidableEq, Repr

/-- A kernel model or kernel spec: the source only reads `name`,
`display_name` (through `||` fallbacks, so the empty string stands for a
missing value) and the optional `id`. -/
structure KernelSpecOrModel where
  name : String := ""
  display_name : String := ""
  id : Option String := none
deriving DecidableEq, Repr

/-- Modelled from the spec: `KernelConnectionMetadata` is declared in
`src/client/jupyter/kernels/types.ts`, which is not part of the source
set.  The spec describes connections that carry a kernel model, a kernel
spec, or only a Python interpreter (kind `startUsingPythonInterpreter`),
each with the interpreter optionally attached. -/
inductive KernelConnectionMetadata where
  | connectToLiveKernel (kernelModel : KernelSpecOrModel) (interpreter : Option Interpreter)
  | startUsingKernelSpec (kernelSpec : KernelSpecOrModel) (interpreter : Option Interpreter)
  | startUsingPythonInterpreter (interpreter : Interpreter) (kernelSpec : Option KernelSpecOrModel)
deriving DecidableEq, Repr

/-- Modelled from the spec: `kernelConnectionMetadataHasKernelModel`
(from `src/client/jupyter/kernels/helpers.ts`, not in the source set) is
the type guard for connections that carry a kernel model. -/
def kernelConnectionMetadataHasKernelModel : KernelConnectionMetadata → Bool
  | KernelConnectionMetadata.connectToLiveKernel _ _ => true
  | _ => false

/-- The `kernelModel` field of a connection. -/
def KernelConnectionMetadata.kernelModelOf : KernelConnectionMetadata → Option KernelSpecOrModel
  | KernelConnectionMetadata.connectToLiveKernel m _ => some m
  | _ => none

/-- The `kernelSpec` field of a connection (absent on live kernels). -/
def KernelConnectionMetadata.kernelSpecOf : KernelConnectionMetadata → Option KernelSpecOrModel
  | KernelConnectionMetadata.connectToLiveKernel _ _ => none
  | KernelConnectionMetadata.startUsingKernelSpec s _ => some s
  | KernelConnectionMetadata.startUsingPythonInterpreter _ s => s

/-- The `interpreter` field of a connection. -/
def KernelConnectionMetadata.interpreterOf : KernelConnectionMetadata → Option Interpreter
  | KernelConnectionMetadata.connectToLiveKernel _ i => i
  | KernelConnectionMetadata.startUsingKernelSpec _ i => i
  | KernelConnectionMetadata.startUsingPythonInterpreter i _ => some i

/-- Modelled from the spec: `getInterpreterFromKernelConnectionMetadata`
(from `src/client/jupyter/kernels/helpers.ts`, not in the source set)
derives the interpreter from the connection, `undefined` when the
connection is absent or carries none. -/
def getInterpreterFromKernelConnectionMetadata :
    Option KernelConnectionMetadata → Option Interpreter
  | none => none
  | some k => k.interpreterOf

/-- JavaScript `a || b` on strings, where only `''` is falsy. -/
def orFalsy (a b : String) : String := if a = "" then b else a

/-- The value returned by `updateNotebookMetadata`.  The source mutates
the metadata object in place; the embedding returns the updated value
alongside the `changed` flag and the optional kernel id. -/
structure UpdateResult where
  metadata : Option NotebookMetadata
  changed : Bool
  kernelId : Option String
deriving DecidableEq, Repr

/-- Lines 66-81 of `updateNotebookMetadata`: reconcile `language_info`
against the derived interpreter.  Returns the updated metadata and
whether this step set `changed`. -/
def updateLanguageInfo (interpreter : Option Interpreter) (m : NotebookMetadata) :
    NotebookMetadata × Bool :=
  match interpreter, m.language_info with
  | some i, some li =>
    match i.version with
    | some v =>
      if li.version ≠ some (VersionVal.str v.raw) then
        ({ m with language_info := some { li with version := some (VersionVal.str v.raw) } }, true)
      else (m, false)
    | none => (m, false)
  | none, some _ => ({ m with language_info := none }, true)
  | _, _ => (m, false)

/-- Line 83-86: the kernel model when the connection carries one, else
the connection's kernel spec. -/
def kernelSpecOrModelOf (kernelConnection : Option KernelConnectionMetadata) :
    Option KernelSpecOrModel :=
  match kernelConnection with
  | none => none
  | some k =>
    if kernelConnectionMetadataHasKernelModel k then k.kernelModelOf else k.kernelSpecOf

/-- Lines 87-124 of `updateNotebookMetadata`: reconcile the `kernelspec`
block.  `sha256Hex` stands for the external `hash.js` sha256 hex digest.
Returns the updated metadata, whether this step set `changed`, and the
kernel id it assigned. -/
def updateKernelspec (sha256Hex : String → String)
    (kernelConnection : Option KernelConnectionMetadata) (m : NotebookMetadata) :
    NotebookMetadata × Bool × Option String :=
  match kernelSpecOrModelOf kernelConnection, m.kernelspec with
  | some ksm, none =>
    let newSpec : Kernelspec :=
      { name := orFalsy ksm.name (orFalsy ksm.display_name ""),
        display_name := orFalsy ksm.display_name (orFalsy ksm.name ""),
        metadata := none }
    ({ m with kernelspec := some newSpec }, true, ksm.id)
  | some ksm, some ks =>
    let name := orFalsy ksm.name (orFalsy ksm.display_name "")
    let displayName := orFalsy ksm.display_name (orFalsy ksm.name "")
    if ks.name ≠ name ∨ ks.display_name ≠ displayName ∨ (none : Option String) ≠ ksm.id then
      ({ m with kernelspec := some { ks with name := name, display_name := displayName } },
        true, ksm.id)
    else (m, false, none)
  | none, _ =>
    match kernelConnection with
    | some (KernelConnectionMetadata.startUsingPythonInterpreter interp _) =>
      let name := orFalsy (interp.displayName.getD "") interp.path
      if m.kernelspec.map Kernelspec.name ≠ some name ∨
          m.kernelspec.map Kernelspec.display_name ≠ some name then
        let newSpec : Kernelspec :=
          { name := name, display_name := name,
            metadata := some { interpreter := some { hash := sha256Hex interp.path } } }
        ({ m with kernelspec := some newSpec }, true, none)
      else (m, false, none)
    | _ => (m, false, none)

/-- Lines 55-126: `updateNotebookMetadata`.  `sha256Hex` stands for the
external `hash.js` sha256 hex digest used on interpreter paths. -/
def updateNotebookMetadata (sha256Hex : String → String)
    (metadata : Option NotebookMetadata) (kernelConnection : Option KernelConnectionMetadata) :
    UpdateResult :=
  match metadata with
  | none => { metadata := none, changed := false, kernelId := none }
  | some m =>
    let interpreter := getInterpreterFromKernelConnectionMetadata kernelConnection
    let r1 := updateLanguageInfo interpreter m
    let r2 := updateKernelspec sha256Hex kernelConnection r1.1
    { metadata := some r2.1, changed := r1.2 || r2.2.1, kernelId := r2.2.2 }

/-- Line 46: the memento key under which the kernel id list is stored. -/
def ActiveKernelIdList : String := "Active_Kernel_Id_List"

/-- Line 48: the number of kernel ids remembered between sessions. -/
def MaximumKernelIdListSize : Nat := 40

/-- Lines 49-52: an entry of the persisted kernel id association list. -/
structure KernelIdListEntry where
  fileHash : String
  kernelId : Option String
deriving DecidableEq, Repr

/-- An abstract notebook cell; the base model never inspects cells. -/
structure ICell where
  id : String
  data : String
deriving DecidableEq, Repr

/-- `Partial nbformat.INotebookContent` as the base model stores it. -/
structure INotebookContent where
  metadata : Option NotebookMetadata := none
  nbformat : Option Nat := none
  nbformat_minor : Option Nat := none
deriving DecidableEq, Repr

/-- Lines 128-153: `getDefaultNotebookContent`. -/
def getDefaultNotebookContent (pythonNumber : Nat) : INotebookContent :=
  let li : LanguageInfo :=
    { codemirror_mode := some { name := "ipython", version := VersionVal.num pythonNumber },
      file_extension := some ".py",
      mimetype := some "text/x-python",
      name := "python",
      nbconvert_exporter := some "python",
      pygments_lexer := some ("ipython" ++ toString pythonNumber),
      version := some (VersionVal.num pythonNumber) }
  let metadata : NotebookMetadata :=
    { language_info := some li, kernelspec := none, orig_nbformat := some 2 }
  { metadata := some metadata, nbformat := some 4, nbformat_minor := some 2 }

/-- Lines 245-249: `ensureNotebookJson` replaces the stored json by the
default content whenever it lacks a metadata block. -/
def ensureNotebookJson (json : INotebookContent) (pythonNumber : Nat) : INotebookContent :=
  if json.metadata = none then getDefaultNotebookContent pythonNumber else json

/-- Lines 251-260: `getStoredKernelId` looks up the remembered kernel id
for a file in the persisted association list.  `createHash` stands for
the host `ICryptoUtils.createHash` primitive, and `list` is the value
the memento holds under `ActiveKernelIdList` (default `[]`). -/
def getStoredKernelId (createHash : String → String) (list : List KernelIdListEntry)
    (file : String) : Option String :=
  let fileHash := createHash file
  (List.find? (fun l => l.fileHash = fileHash) list).bind KernelIdListEntry.kernelId

/-- Modelled from the spec: the operation that records a kernel id for a
file is not in the source set; the spec describes the persisted list as
a capped (40-entry) association list, so the store operation replaces
the entry for the file hash and keeps at most `MaximumKernelIdListSize`
entries. -/
def storeKernelId (list : List KernelIdListEntry) (fileHash : String)
    (kernelId : Option String) : List KernelIdListEntry :=
  let entry : KernelIdListEntry := { fileHash := fileHash, kernelId := kernelId }
  let rest := List.filter (fun l => l.fileHash ≠ fileHash) list
  List.take MaximumKernelIdListSize (entry :: rest)

/-- Lines 154-261: the observable state of a `BaseNotebookModel`.
Host-side event emitters carry no observable state and are omitted;
`crypto` is the host hashing primitive; `icellsImpl` is whatever the
subclass's `getICells` would supply. -/
structure BaseNotebookModel where
  _isTrusted : Bool
  _file : String
  globalMemento : List KernelIdListEntry
  crypto : String → String
  notebookJson : INotebookContent
  indentAmount : String
  pythonNumber : Nat
  _isDisposed : Option Bool
  kernelId : Option String
  icellsImpl : List ICell

/-- Lines 196-207: the constructor runs `ensureNotebookJson` and then
looks up the stored kernel id. -/
def BaseNotebookModel.create (isTrusted : Bool) (file : String)
    (globalMemento : List KernelIdListEntry) (crypto : String → String)
    (notebookJson : INotebookContent) (indentAmount : String) (pythonNumber : Nat)
    (icellsImpl : List ICell) : BaseNotebookModel :=
  let nj := ensureNotebookJson notebookJson pythonNumber
  { _isTrusted := isTrusted, _file := file, globalMemento := globalMemento,
    crypto := crypto, notebookJson := nj, indentAmount := indentAmount,
    pythonNumber := pythonNumber, _isDisposed := none,
    kernelId := getStoredKernelId crypto globalMemento file,
    icellsImpl := icellsImpl }

/-- Lines 158-160: `isDisposed` is `_isDisposed === true`. -/
def BaseNotebookModel.isDisposed (m : BaseNotebookModel) : Bool :=
  m._isDisposed = some true

/-- Lines 161-163: the base `isDirty` getter. -/
def BaseNotebookModel.isDirty (_m : BaseNotebookModel) : Bool := false

/-- Lines 187-189: the `isTrusted` getter. -/
def BaseNotebookModel.isTrusted (m : BaseNotebookModel) : Bool := m._isTrusted

/-- Lines 215-218: `dispose` sets `_isDisposed`. -/
def BaseNotebookModel.dispose (m : BaseNotebookModel) : BaseNotebookModel :=
  { m with _isDisposed := some true }

/-- Lines 226-228: `trust` sets `_isTrusted`. -/
def BaseNotebookModel.trust (m : BaseNotebookModel) : BaseNotebookModel :=
  { m with _isTrusted := true }

/-- Lines 208-214: the `cells` getter returns `[]` once disposed, else
what the subclass's `getICells` supplies. -/
def BaseNotebookModel.cells (m : BaseNotebookModel) : List ICell :=
  if m.isDisposed then [] else m.icellsImpl

/-- The kernelspec block that the create branch (lines 89-92) builds
from a kernel model or spec: name and display name fall back to each
other, the empty string when both are missing. -/
def createdKernelspec (ksm : KernelSpecOrModel) : Kernelspec :=
  { name := orFalsy ksm.name (orFalsy ksm.display_name ""),
    display_name := orFalsy ksm.display_name (orFalsy ksm.name ""),
    metadata := none }

/-- The kernelspec block that the python-interpreter branch (lines
112-123) builds: both names are `displayName || path` and the hash is
the digest of the interpreter path. -/
def pythonKernelspec (sha256Hex : String → String) (interp : Interpreter) : Kernelspec :=
  { name := orFalsy (interp.displayName.getD "") interp.path,
    display_name := orFalsy (interp.displayName.getD "") interp.path,
    metadata := some { interpreter := some { hash := sha256Hex interp.path } } }

/-! ### Concrete sample values used by witnesses and counterexamples -/

/-- A concrete `language_info` block with a stale version. -/
def liSample : LanguageInfo :=
  { name := "python", version := some (VersionVal.str "3.7") }

/-- A concrete metadata object carrying `liSample`. -/
def mdSample : NotebookMetadata := { language_info := some liSample }

/-- A concrete interpreter reporting version `"3.8"`. -/
def interpSample : Interpreter := { path := "p", version := some { raw := "3.8" } }

/-- A concrete kernel spec connection carrying `interpSample`. -/
def kcSample : Option KernelConnectionMetadata :=
  some (KernelConnectionMetadata.startUsingKernelSpec { name := "a" } (some interpSample))

/-- A kernelspec already matching the interpreter name but holding a
stale hash. -/
def staleSpec : Kernelspec :=
  { name := "p", display_name := "p",
    metadata := some { interpreter := some { hash := "old" } } }

/-- A metadata object carrying `staleSpec`. -/
def staleMd : NotebookMetadata := { kernelspec := some staleSpec }

/-- An interpreter whose display name already matches `staleSpec`. -/
def pInterp : Interpreter := { displayName := some "p", path := "q" }

/-- A python-interpreter connection carrying `pInterp` and no spec. -/
def pConn : Option KernelConnectionMetadata :=
  some (KernelConnectionMetadata.startUsingPythonInterpreter pInterp none)

/-- A concrete kernel spec with an id. -/
def ksmSample : KernelSpecOrModel :=
  { name := "k1", display_name := "K One", id := some "ID" }

/-- A connection carrying `ksmSample`. -/
def kcSpecSample : Option KernelConnectionMetadata :=
  some (KernelConnectionMetadata.startUsingKernelSpec ksmSample none)

/-- A concrete model with one cell supplied by the subclass. -/
def modelSample : BaseNotebookModel :=
  BaseNotebookModel.create true "f" [] (fun s => s) {} " " 3 [{ id := "c", data := "d" }]

/-! ### Helper lemmas about the two reconciliation steps -/

theorem updateLanguageInfo_kernelspec (i : Option Interpreter) (m : NotebookMetadata) :
    (updateLanguageInfo i m).1.kernelspec = m.kernelspec := by
  unfold updateLanguageInfo
  split
  · split
    · split <;> rfl
    · rfl
  · rfl
  · rfl

theorem updateLanguageInfo_cases (i : Option Interpreter) (m : NotebookMetadata) :
    ((updateLanguageInfo i m).1 = m ∧ (updateLanguageInfo i m).2 = false) ∨
    ((updateLanguageInfo i m).2 = true ∧
      (updateLanguageInfo i m).1.language_info ≠ m.language_info) := by
  unfold updateLanguageInfo
  split
  next i0 li heq =>
    split
    next v hv =>
      split
      next hne =>
        refine Or.inr ⟨rfl, ?_⟩
        rw [heq]
        intro hcon
        have h2 := Option.some.inj hcon
        have h3 := congrArg LanguageInfo.version h2
        exact hne (h3.symm)
      next hne => exact Or.inl ⟨rfl, rfl⟩
    next hv => exact Or.inl ⟨rfl, rfl⟩
  next heq =>
    refine Or.inr ⟨rfl, ?_⟩
    rw [heq]
    intro hcon
    exact Option.noConfusion hcon
  next => exact Or.inl ⟨rfl, rfl⟩

theorem updateKernelspec_language (h : String → String)
    (kc : Option KernelConnectionMetadata) (m : NotebookMetadata) :
    (updateKernelspec h kc m).1.language_info = m.language_info := by
  unfold updateKernelspec
  split
  · rfl
  · dsimp only
    split <;> rfl
  · split
    · dsimp only
      split <;> rfl
    · rfl

theorem updateKernelspec_cases (h : String → String)
    (kc : Option KernelConnectionMetadata) (m : NotebookMetadata) :
    ((updateKernelspec h kc m).1 = m ∧ (updateKernelspec h kc m).2.1 = false ∧
      (updateKernelspec h kc m).2.2 = none) ∨
    ((updateKernelspec h kc m).2.1 = true ∧
      ((updateKernelspec h kc m).1.kernelspec ≠ m.kernelspec ∨
        (updateKernelspec h kc m).2.2 ≠ none)) := by
  unfold updateKernelspec
  split
  next ksm hk hs =>
    refine Or.inr ⟨rfl, Or.inl ?_⟩
    rw [hs]
    intro hcon
    exact Option.noConfusion hcon
  next ksm ks hk hs =>
    dsimp only
    split
    next hcond =>
      refine Or.inr ⟨rfl, ?_⟩
      rcases hcond with hn | hd | hi
      · refine Or.inl ?_
        rw [hs]
        intro hcon
        have h2 := Option.some.inj hcon
        exact hn ((congrArg Kernelspec.name h2).symm)
      · refine Or.inl ?_
        rw [hs]
        intro hcon
        have h2 := Option.some.inj hcon
        exact hd ((congrArg Kernelspec.display_name h2).symm)
      · exact Or.inr (fun hcon => hi (hcon.symm))
    next => exact Or.inl ⟨rfl, rfl, rfl⟩
  next hk =>
    split
    next interp s =>
      dsimp only
      split
      next hcond =>
        refine Or.inr ⟨rfl, Or.inl ?_⟩
        rcases hcond with hn | hd
        · intro hcon
          have h2 := congrArg (Option.map Kernelspec.name) hcon
          simp only [Option.map_some] at h2
          exact hn (h2.symm)
        · intro hcon
          have h2 := congrArg (Option.map Kernelspec.display_name) hcon
          simp only [Option.map_some] at h2
          exact hd (h2.symm)
      next => exact Or.inl ⟨rfl, rfl, rfl⟩
    next => exact Or.inl ⟨rfl, rfl, rfl⟩

/-- C1: `updateNotebookMetadata` mutates a metadata field only when the
new value differs from the existing one: the returned `changed` flag is
`true` only when the metadata after the call differs from the metadata
before the call or a kernel id is returned, and `changed = false`
implies the metadata is left entirely unchanged. -/
theorem updateNotebookMetadata_frame (sha256Hex : String → String)
    (metadata : Option NotebookMetadata) (kernelConnection : Option KernelConnectionMetadata) :
    ((updateNotebookMetadata sha256Hex metadata kernelConnection).changed = false →
      (updateNotebookMetadata sha256Hex metadata kernelConnection).metadata = metadata) ∧
    ((updateNotebookMetadata sha256Hex metadata kernelConnection).changed = true →
      (updateNotebookMetadata sha256Hex metadata kernelConnection).metadata ≠ metadata ∨
        (updateNotebookMetadata sha256Hex metadata kernelConnection).kernelId ≠ none) := by
  cases metadata with
  | none =>
    refine ⟨fun _ => rfl, fun hc => ?_⟩
    simp [updateNotebookMetadata] at hc
  | some m =>
    have hL := updateLanguageInfo_cases
      (getInterpreterFromKernelConnectionMetadata kernelConnection) m
    have hK := updateKernelspec_cases sha256Hex kernelConnection
      (updateLanguageInfo (getInterpreterFromKernelConnectionMetadata kernelConnection) m).1
    have hres : updateNotebookMetadata sha256Hex (some m) kernelConnection =
        { metadata := some (updateKernelspec sha256Hex kernelConnection
            (updateLanguageInfo (getInterpreterFromKernelConnectionMetadata kernelConnection) m).1).1,
          changed := (updateLanguageInfo
              (getInterpreterFromKernelConnectionMetadata kernelConnection) m).2 ||
            (updateKernelspec sha256Hex kernelConnection
              (updateLanguageInfo (getInterpreterFromKernelConnectionMetadata kernelConnection) m).1).2.1,
          kernelId := (updateKernelspec sha256Hex kernelConnection
            (updateLanguageInfo (getInterpreterFromKernelConnectionMetadata kernelConnection) m).1).2.2 } :=
      rfl
    rw [hres]
    dsimp only
    constructor
    · intro hc
      rcases Bool.or_eq_false_iff.mp hc with ⟨hc1, hc2⟩
      rcases hL with ⟨hLm, _⟩ | ⟨hLc, _⟩
      · rcases hK with ⟨hKm, _, _⟩ | ⟨hKc, _⟩
        · rw [hKm, hLm]
        · rw [hKc] at hc2
          exact absurd hc2 (by simp)
      · rw [hLc] at hc1
        exact absurd hc1 (by simp)
    · intro hc
      rcases hK with ⟨hKm, hKc, _⟩ | ⟨_, hKne⟩
      · rcases hL with ⟨hLm, hLc⟩ | ⟨_, hLne⟩
        · rw [hLc, hKc] at hc
          exact absurd hc (by simp)
        · refine Or.inl fun hcon => ?_
          have h2 := Option.some.inj hcon
          rw [hKm] at h2
          exact hLne (congrArg NotebookMetadata.language_info h2)
      · rcases hKne with hne | hid
        · refine Or.inl fun hcon => ?_
          have h2 := Option.some.inj hcon
          apply hne
          rw [h2, updateLanguageInfo_kernelspec]
        · exact Or.inr hid

/-- Witness for C1 at a concrete input: an absent metadata object is
reported unchanged. -/
theorem updateNotebookMetadata_frame_witness :
    (updateNotebookMetadata (fun _ => "h") none none).metadata = none :=
  (updateNotebookMetadata_frame (fun _ => "h") none none).1 rfl

theorem updateNotebookMetadata_some (sha256Hex : String → String)
    (kc : Option KernelConnectionMetadata) (m : NotebookMetadata) :
    updateNotebookMetadata sha256Hex (some m) kc =
      { metadata := some (updateKernelspec sha256Hex kc
          (updateLanguageInfo (getInterpreterFromKernelConnectionMetadata kc) m).1).1,
        changed := (updateLanguageInfo
            (getInterpreterFromKernelConnectionMetadata kc) m).2 ||
          (updateKernelspec sha256Hex kc
            (updateLanguageInfo (getInterpreterFromKernelConnectionMetadata kc) m).1).2.1,
        kernelId := (updateKernelspec sha256Hex kc
          (updateLanguageInfo (getInterpreterFromKernelConnectionMetadata kc) m).1).2.2 } := rfl

theorem updateLanguageInfo_version_eq (i : Interpreter) (v : PythonVersion)
    (m : NotebookMetadata) (li : LanguageInfo)
    (hli : m.language_info = some li) (hv : i.version = some v) :
    updateLanguageInfo (some i) m =
      if li.version ≠ some (VersionVal.str v.raw) then
        ({ m with language_info := some { li with version := some (VersionVal.str v.raw) } }, true)
      else (m, false) := by
  unfold updateLanguageInfo
  rw [hli]
  dsimp only
  rw [hv]

theorem updateLanguageInfo_none_clears (m : NotebookMetadata) (li : LanguageInfo)
    (hli : m.language_info = some li) :
    updateLanguageInfo none m = ({ m with language_info := none }, true) := by
  unfold updateLanguageInfo
  rw [hli]

theorem LanguageInfo.set_version_eq (li : LanguageInfo) (x : Option VersionVal)
    (hx : li.version = x) : { li with version := x } = li := by
  cases li
  cases hx
  rfl

/-- C2: when the metadata has a `language_info` block and the connection
yields an interpreter with a version, `updateNotebookMetadata` ends with
`language_info.version` equal to the interpreter's raw version string;
it reports `changed = true` when the stored version differed, and when
the versions are equal the `language_info` step leaves the metadata
unchanged without setting `changed`. -/
theorem updateNotebookMetadata_language_version (sha256Hex : String → String)
    (kc : Option KernelConnectionMetadata) (m : NotebookMetadata) (li : LanguageInfo)
    (i : Interpreter) (v : PythonVersion)
    (hli : m.language_info = some li)
    (hint : getInterpreterFromKernelConnectionMetadata kc = some i)
    (hv : i.version = some v) :
    ((updateNotebookMetadata sha256Hex (some m) kc).metadata.bind
        NotebookMetadata.language_info =
      some { li with version := some (VersionVal.str v.raw) }) ∧
    (li.version ≠ some (VersionVal.str v.raw) →
      (updateNotebookMetadata sha256Hex (some m) kc).changed = true) ∧
    (li.version = some (VersionVal.str v.raw) →
      updateLanguageInfo (some i) m = (m, false)) := by
  rw [updateNotebookMetadata_some, hint]
  have hchar := updateLanguageInfo_version_eq i v m li hli hv
  by_cases hne : li.version = some (VersionVal.str v.raw)
  · rw [if_neg (by simpa using hne)] at hchar
    refine ⟨?_, ?_, fun _ => hchar⟩
    · dsimp only [Option.bind]
      rw [updateKernelspec_language, hchar]
      dsimp only
      rw [hli, LanguageInfo.set_version_eq li _ hne]
    · intro hcon
      exact absurd hne hcon
  · rw [if_pos (by simpa using hne)] at hchar
    refine ⟨?_, fun _ => ?_, fun heq => absurd heq hne⟩
    · dsimp only [Option.bind]
      rw [updateKernelspec_language, hchar]
    · rw [hchar]
      rfl

/-- Witness for C2: a stored version `"3.7"` is rewritten to the
interpreter's `"3.8"`. -/
theorem updateNotebookMetadata_language_version_witness :
    ((updateNotebookMetadata (fun _ => "h") (some mdSample) kcSample).metadata.bind
        NotebookMetadata.language_info =
      some { liSample with version := some (VersionVal.str "3.8") }) ∧
    (updateNotebookMetadata (fun _ => "h") (some mdSample) kcSample).changed = true := by
  have h := updateNotebookMetadata_language_version (fun _ => "h") kcSample mdSample
    liSample interpSample { raw := "3.8" } rfl rfl rfl
  exact ⟨h.1, h.2.1 (by decide)⟩

/-- C3: when the metadata has a `language_info` block and no interpreter
can be derived from the connection, `updateNotebookMetadata` clears
`language_info` and reports `changed = true`. -/
theorem updateNotebookMetadata_clears_language_info (sha256Hex : String → String)
    (kc : Option KernelConnectionMetadata) (m : NotebookMetadata) (li : LanguageInfo)
    (hli : m.language_info = some li)
    (hint : getInterpreterFromKernelConnectionMetadata kc = none) :
    ((updateNotebookMetadata sha256Hex (some m) kc).metadata.bind
        NotebookMetadata.language_info = none) ∧
    (updateNotebookMetadata sha256Hex (some m) kc).changed = true := by
  rw [updateNotebookMetadata_some, hint]
  have hchar := updateLanguageInfo_none_clears m li hli
  constructor
  · dsimp only [Option.bind]
    rw [updateKernelspec_language, hchar]
  · rw [hchar]
    rfl

/-- Witness for C3: with no kernel connection at all, a stale
`language_info` block is cleared. -/
theorem updateNotebookMetadata_clears_language_info_witness :
    ((updateNotebookMetadata (fun _ => "h")
        (some { language_info := some { name := "python" } }) none).metadata.bind
      NotebookMetadata.language_info = none) ∧
    (updateNotebookMetadata (fun _ => "h")
        (some { language_info := some { name := "python" } }) none).changed = true :=
  updateNotebookMetadata_clears_language_info (fun _ => "h") none
    { language_info := some { name := "python" } } { name := "python" } rfl rfl

/-- C6: an absent metadata argument makes `updateNotebookMetadata`
return early with `changed = false` and no kernel id, for every kernel
connection. -/
theorem updateNotebookMetadata_none (sha256Hex : String → String)
    (kernelConnection : Option KernelConnectionMetadata) :
    updateNotebookMetadata sha256Hex none kernelConnection =
      { metadata := none, changed := false, kernelId := none } := rfl

theorem updateKernelspec_create (h : String → String)
    (kc : Option KernelConnectionMetadata) (m : NotebookMetadata) (ksm : KernelSpecOrModel)
    (hk : kernelSpecOrModelOf kc = some ksm) (hms : m.kernelspec = none) :
    updateKernelspec h kc m =
      ({ m with kernelspec := some (createdKernelspec ksm) }, true, ksm.id) := by
  unfold updateKernelspec
  rw [hk, hms]
  rfl

theorem updateKernelspec_python_differs (h : String → String) (interp : Interpreter)
    (m : NotebookMetadata)
    (hcond : m.kernelspec.map Kernelspec.name ≠
        some (orFalsy (interp.displayName.getD "") interp.path) ∨
      m.kernelspec.map Kernelspec.display_name ≠
        some (orFalsy (interp.displayName.getD "") interp.path)) :
    updateKernelspec h
        (some (KernelConnectionMetadata.startUsingPythonInterpreter interp none)) m =
      ({ m with kernelspec := some (pythonKernelspec h interp) }, true, none) := by
  have hk : kernelSpecOrModelOf
      (some (KernelConnectionMetadata.startUsingPythonInterpreter interp none)) = none := rfl
  unfold updateKernelspec
  rw [hk]
  dsimp only
  rw [if_pos hcond]
  rfl

theorem updateKernelspec_python_same (h : String → String) (interp : Interpreter)
    (m : NotebookMetadata)
    (hcond : ¬(m.kernelspec.map Kernelspec.name ≠
        some (orFalsy (interp.displayName.getD "") interp.path) ∨
      m.kernelspec.map Kernelspec.display_name ≠
        some (orFalsy (interp.displayName.getD "") interp.path))) :
    updateKernelspec h
        (some (KernelConnectionMetadata.startUsingPythonInterpreter interp none)) m =
      (m, false, none) := by
  have hk : kernelSpecOrModelOf
      (some (KernelConnectionMetadata.startUsingPythonInterpreter interp none)) = none := rfl
  unfold updateKernelspec
  rw [hk]
  dsimp only
  rw [if_neg hcond]

/-- C4 counterexample: with a `startUsingPythonInterpreter` connection,
when the existing kernelspec name and display name already equal the
interpreter's display name, `updateNotebookMetadata` keeps the stale
hash `"old"` instead of storing the digest of the interpreter path, so
the claim that this branch always stores the sha256 digest fails. -/
theorem updateNotebookMetadata_python_hash_counterexample :
    (((updateNotebookMetadata (fun _ => "HASH") (some staleMd) pConn).metadata.bind
        NotebookMetadata.kernelspec).bind Kernelspec.metadata =
      some { interpreter := some { hash := "old" } }) ∧
    (updateNotebookMetadata (fun _ => "HASH") (some staleMd) pConn).changed = false ∧
    ((fun _ : String => "HASH") pInterp.path) = "HASH" ∧ ("old" : String) ≠ "HASH" :=
  ⟨rfl, rfl, rfl, by decide⟩

/-- C4 (amended): when the connection carries a kernel model or spec and
`metadata.kernelspec` is absent, a new kernelspec block is created whose
name and display name fall back to each other, the spec's id is
returned, and `changed` is set; a connection carrying only a python
interpreter stores the interpreter-named kernelspec block with the
sha256 hex digest of the interpreter path exactly when the existing
kernelspec's name or display name differs from the interpreter's
display name (or path) — in particular whenever the kernelspec is
absent — and when both already equal it the branch leaves the metadata
unchanged without setting `changed`. -/
theorem updateNotebookMetadata_kernelspec (sha256Hex : String → String)
    (kc : Option KernelConnectionMetadata) (m m2 : NotebookMetadata)
    (ksm : KernelSpecOrModel) (interp : Interpreter) :
    (kernelSpecOrModelOf kc = some ksm → m.kernelspec = none →
      (updateNotebookMetadata sha256Hex (some m) kc).metadata.bind
          NotebookMetadata.kernelspec = some (createdKernelspec ksm) ∧
        (updateNotebookMetadata sha256Hex (some m) kc).kernelId = ksm.id ∧
        (updateNotebookMetadata sha256Hex (some m) kc).changed = true) ∧
    (m2.kernelspec.map Kernelspec.name ≠
        some (orFalsy (interp.displayName.getD "") interp.path) ∨
      m2.kernelspec.map Kernelspec.display_name ≠
        some (orFalsy (interp.displayName.getD "") interp.path) →
      (updateNotebookMetadata sha256Hex (some m2)
          (some (KernelConnectionMetadata.startUsingPythonInterpreter interp none))).metadata.bind
          NotebookMetadata.kernelspec = some (pythonKernelspec sha256Hex interp) ∧
        (updateNotebookMetadata sha256Hex (some m2)
          (some (KernelConnectionMetadata.startUsingPythonInterpreter interp none))).changed =
          true) ∧
    (¬(m2.kernelspec.map Kernelspec.name ≠
        some (orFalsy (interp.displayName.getD "") interp.path) ∨
      m2.kernelspec.map Kernelspec.display_name ≠
        some (orFalsy (interp.displayName.getD "") interp.path)) →
      updateKernelspec sha256Hex
        (some (KernelConnectionMetadata.startUsingPythonInterpreter interp none)) m2 =
        (m2, false, none)) := by
  refine ⟨fun hk hms => ?_, fun hcond => ?_,
    fun hcond => updateKernelspec_python_same sha256Hex interp m2 hcond⟩
  · rw [updateNotebookMetadata_some]
    have h1 : (updateLanguageInfo
        (getInterpreterFromKernelConnectionMetadata kc) m).1.kernelspec = none := by
      rw [updateLanguageInfo_kernelspec]
      exact hms
    have h2 := updateKernelspec_create sha256Hex kc
      (updateLanguageInfo (getInterpreterFromKernelConnectionMetadata kc) m).1 ksm hk h1
    rw [h2]
    exact ⟨rfl, rfl, Bool.or_true _⟩
  · rw [updateNotebookMetadata_some]
    have hks : (updateLanguageInfo (getInterpreterFromKernelConnectionMetadata
        (some (KernelConnectionMetadata.startUsingPythonInterpreter interp none)))
          m2).1.kernelspec = m2.kernelspec :=
      updateLanguageInfo_kernelspec _ _
    have h2 := updateKernelspec_python_differs sha256Hex interp
      (updateLanguageInfo (getInterpreterFromKernelConnectionMetadata
        (some (KernelConnectionMetadata.startUsingPythonInterpreter interp none))) m2).1
      (by rw [hks]; exact hcond)
    rw [h2]
    exact ⟨rfl, Bool.or_true _⟩

/-- Witness for C4: a kernel spec connection with id `"ID"` creates the
kernelspec block on metadata that has none. -/
theorem updateNotebookMetadata_kernelspec_witness :
    ((updateNotebookMetadata (fun _ => "h") (some {}) kcSpecSample).metadata.bind
        NotebookMetadata.kernelspec = some (createdKernelspec ksmSample)) ∧
    (updateNotebookMetadata (fun _ => "h") (some {}) kcSpecSample).kernelId = some "ID" ∧
    (updateNotebookMetadata (fun _ => "h") (some {}) kcSpecSample).changed = true := by
  have h := (updateNotebookMetadata_kernelspec (fun _ => "h") kcSpecSample {} {}
    ksmSample { path := "p" }).1 rfl rfl
  exact ⟨h.1, h.2.1, h.2.2⟩

/-- C5: the base model's flags: `isDirty` is `false` — no base-class
operation mutates the wrapped notebook document — `trust` makes
`isTrusted` true, and `dispose` makes `isDisposed` true. -/
theorem BaseNotebookModel.flags (m : BaseNotebookModel) :
    m.isDirty = false ∧
    m.trust.isTrusted = true ∧
    m.dispose.isDisposed = true ∧
    m.trust.notebookJson = m.notebookJson ∧
    m.dispose.notebookJson = m.notebookJson :=
  ⟨rfl, rfl, rfl, rfl, rfl⟩

/-- C7: `getStoredKernelId` returns the `kernelId` of the first entry
whose `fileHash` equals the hash of the file, and `none` when no entry
matches (in particular on the empty list). -/
theorem getStoredKernelId_spec (createHash : String → String) (file : String) :
    (∀ (pre : List KernelIdListEntry) (entry : KernelIdListEntry)
        (post : List KernelIdListEntry),
      (∀ x ∈ pre, x.fileHash ≠ createHash file) →
      entry.fileHash = createHash file →
      getStoredKernelId createHash (pre ++ entry :: post) file = entry.kernelId) ∧
    (∀ list : List KernelIdListEntry,
      (∀ x ∈ list, x.fileHash ≠ createHash file) →
      getStoredKernelId createHash list file = none) := by
  constructor
  · intro pre entry post hpre hentry
    induction pre with
    | nil =>
      unfold getStoredKernelId
      dsimp only
      have hp : (fun l : KernelIdListEntry =>
          decide (l.fileHash = createHash file)) entry = true := by
        simpa using hentry
      rw [List.nil_append, List.find?_cons_of_pos post hp]
      rfl
    | cons x pre ih =>
      unfold getStoredKernelId at ih ⊢
      dsimp only at ih ⊢
      have hp : ¬((fun l : KernelIdListEntry =>
          decide (l.fileHash = createHash file)) x = true) := by
        simpa using hpre x (List.mem_cons_self x pre)
      rw [List.cons_append, List.find?_cons_of_neg (pre ++ entry :: post) hp]
      exact ih fun y hy => hpre y (List.mem_cons_of_mem x hy)
  · intro list hlist
    induction list with
    | nil => rfl
    | cons x rest ih =>
      unfold getStoredKernelId at ih ⊢
      dsimp only at ih ⊢
      have hp : ¬((fun l : KernelIdListEntry =>
          decide (l.fileHash = createHash file)) x = true) := by
        simpa using hlist x (List.mem_cons_self x rest)
      rw [List.find?_cons_of_neg rest hp]
      exact ih fun y hy => hlist y (List.mem_cons_of_mem x hy)

/-- Witness for C7: the first matching entry wins over a later one, and
a non-matching entry before it is skipped. -/
theorem getStoredKernelId_spec_witness :
    getStoredKernelId (fun s => s)
      [{ fileHash := "g", kernelId := some "K0" },
       { fileHash := "f", kernelId := some "K1" },
       { fileHash := "f", kernelId := some "K2" }] "f" = some "K1" :=
  (getStoredKernelId_spec (fun s => s) "f").1
    [{ fileHash := "g", kernelId := some "K0" }]
    { fileHash := "f", kernelId := some "K1" }
    [{ fileHash := "f", kernelId := some "K2" }]
    (by decide) (by decide)

/-- C8: the kernel id list cap is 40, and the store operation keeps the
persisted list at or below `MaximumKernelIdListSize` entries. -/
theorem storeKernelId_bounded :
    MaximumKernelIdListSize = 40 ∧
    ∀ (list : List KernelIdListEntry) (fileHash : String) (kernelId : Option String),
      (storeKernelId list fileHash kernelId).length ≤ MaximumKernelIdListSize := by
  refine ⟨rfl, fun list fileHash kernelId => ?_⟩
  unfold storeKernelId
  rw [List.length_take]
  exact min_le_left _ _

/-- C9: constructing a model from json without a metadata block falls
back to the default notebook content: nbformat 4, nbformat_minor 2, and
a `language_info` block with name python, file extension `.py` and the
python version number; every constructed model has a metadata block. -/
theorem BaseNotebookModel.create_default (isTrusted : Bool) (file : String)
    (memento : List KernelIdListEntry) (crypto : String → String)
    (json : INotebookContent) (indent : String) (py : Nat) (cells : List ICell)
    (hmd : json.metadata = none) :
    (BaseNotebookModel.create isTrusted file memento crypto json indent py
        cells).notebookJson = getDefaultNotebookContent py ∧
    (getDefaultNotebookContent py).nbformat = some 4 ∧
    (getDefaultNotebookContent py).nbformat_minor = some 2 ∧
    ((getDefaultNotebookContent py).metadata.bind NotebookMetadata.language_info).map
        LanguageInfo.name = some "python" ∧
    ((getDefaultNotebookContent py).metadata.bind NotebookMetadata.language_info).map
        LanguageInfo.file_extension = some (some ".py") ∧
    ((getDefaultNotebookContent py).metadata.bind NotebookMetadata.language_info).map
        LanguageInfo.version = some (some (VersionVal.num py)) ∧
    ∀ json2 : INotebookContent,
      (BaseNotebookModel.create isTrusted file memento crypto json2 indent py
        cells).notebookJson.metadata.isSome = true := by
  refine ⟨?_, rfl, rfl, rfl, rfl, rfl, ?_⟩
  · show ensureNotebookJson json py = getDefaultNotebookContent py
    unfold ensureNotebookJson
    rw [if_pos hmd]
  · intro json2
    show (ensureNotebookJson json2 py).metadata.isSome = true
    unfold ensureNotebookJson
    cases hj : json2.metadata with
    | none => rw [if_pos rfl]; rfl
    | some md => rw [if_neg (by simp), hj]; rfl

/-- Witness for C9: an empty json blob yields the default content. -/
theorem BaseNotebookModel.create_default_witness :
    (BaseNotebookModel.create true "f" [] (fun s => s) {} " " 3 []).notebookJson =
      getDefaultNotebookContent 3 :=
  (BaseNotebookModel.create_default true "f" [] (fun s => s) {} " " 3 [] rfl).1

/-- C10: `dispose` makes `isDisposed` true and empties `cells`; once
`isDisposed` holds, `cells` is empty regardless of the cells the
subclass supplies, and neither `trust` nor a second `dispose` unsets the
flag. -/
theorem BaseNotebookModel.disposed_cells (m : BaseNotebookModel) :
    m.dispose.isDisposed = true ∧
    m.dispose.cells = [] ∧
    (m.isDisposed = true →
      m.cells = [] ∧ m.trust.isDisposed = true ∧ m.dispose.isDisposed = true) := by
  refine ⟨rfl, rfl, fun h => ⟨?_, ?_, rfl⟩⟩
  · unfold BaseNotebookModel.cells
    rw [h]
    rfl
  · exact h

/-- Witness for C10: a disposed concrete model with one subclass cell
reports no cells and stays disposed after `trust`. -/
theorem BaseNotebookModel.disposed_cells_witness :
    modelSample.dispose.cells = [] ∧ modelSample.dispose.trust.isDisposed = true := by
  have h := (BaseNotebookModel.disposed_cells modelSample.dispose).2.2 rfl
  exact ⟨h.1, h.2.1⟩
